import Mathlib

/-!
Shallow embedding of the MiDiMe audio-processing backend
(src/backend/audio_processing/) and proofs of the specification claims.

Conventions of the embedding:
* Python floats are modelled as rationals (ℚ); machine ints as ℤ/ℕ.
* External library calls that are not part of this repository (librosa's
  FFT, pydub's decoder, spleeter) are parameters of the embedded
  functions: a function argument or an environment field records the
  outcome of the call, including its possible failure, as an Except value.
* Python exceptions are modelled with Except; a try/except block becomes a
  match on the Except value produced by the body.
* Python's decimal rendering of numbers inside f-strings is abstracted by
  toString; the claims only depend on the constant message prefixes.
-/

namespace MiDiMe

/-- The three drum classes produced by the classifier
(src/backend/audio_processing/drum_classifier.py). -/
inductive DrumType where
  | kick
  | snare
  | hihat
deriving DecidableEq, Repr

/-- DRUM_MIDI_NOTES: the static class-to-MIDI-note table
(drum_classifier.py lines 17-21). -/
def DRUM_MIDI_NOTES : DrumType → ℕ
  | .kick => 36
  | .snare => 38
  | .hihat => 42

/-- Python's int() conversion of a float: truncation toward zero. -/
def pyInt (q : ℚ) : ℤ :=
  if 0 ≤ q then ⌊q⌋ else ⌈q⌉

/-- The sample index computed by classify_drum_pattern for one onset:
onset_sample = int(onset_time * sr)  (drum_classifier.py line 134). -/
def onset_sample_of (onset_time sr : ℚ) : ℤ :=
  pyInt (onset_time * sr)

/-- Python list slicing l[a:b] for integer indices: negative indices count
from the end, and the resolved bounds are clamped into [0, len(l)]. -/
def pySlice (l : List ℚ) (a b : ℤ) : List ℚ :=
  let n : ℤ := l.length
  let a' : ℤ := if a < 0 then max (n + a) 0 else min a n
  let b' : ℤ := if b < 0 then max (n + b) 0 else min b n
  (l.take b'.toNat).drop a'.toNat

/-- The analysis window extracted around an onset by classify_drum_hit
(drum_classifier.py lines 51-53):
start = max(0, onset_sample - window_size // 2),
end = min(len(y), onset_sample + window_size // 2), window = y[start:end]. -/
def hit_window (y : List ℚ) (onset_sample : ℤ) (window_size : ℕ) : List ℚ :=
  let start_sample : ℤ := max 0 (onset_sample - (window_size / 2 : ℕ))
  let end_sample : ℤ := min (y.length : ℤ) (onset_sample + (window_size / 2 : ℕ))
  pySlice y start_sample end_sample

/-- np.fft.rfftfreq(n, 1/sr): the list of n/2+1 bin frequencies i*sr/n
(drum_classifier.py line 57). -/
def rfftfreq (n : ℕ) (sr : ℚ) : List ℚ :=
  (List.range (n / 2 + 1)).map fun i => (i : ℚ) * sr / (n : ℚ)

/-- np.sum(magnitudes[(freqs >= lo) & (freqs < hi)]): the sum of the
magnitudes whose bin frequency lies in [lo, hi)
(drum_classifier.py lines 66-68). -/
def band_energy (freqs mags : List ℚ) (lo hi : ℚ) : ℚ :=
  (((freqs.zip mags).filter fun p => decide (lo ≤ p.1 ∧ p.1 < hi)).map
    fun p => p.2).sum

/-- Python's max(iterable, key=f) over a nonempty iterable given as head and
tail: the running maximum is replaced only when a later key is strictly
greater, so the first element attaining the maximal key wins. -/
def pyMaxByKey (key : DrumType → ℚ) (x0 : DrumType) (xs : List DrumType) :
    DrumType :=
  xs.foldl (fun best a => if key best < key a then a else best) x0

/-- The classification step of classify_drum_hit after the FFT
(drum_classifier.py lines 60-79): band energies for kick [20,100),
snare [150,250), hihat [5000,10000), then
max(energies, key=energies.get) over the dict whose insertion order is
kick, snare, hihat. -/
def classify_from_bands (freqs mags : List ℚ) : DrumType :=
  pyMaxByKey
    (fun d =>
      match d with
      | .kick => band_energy freqs mags 20 100
      | .snare => band_energy freqs mags 150 250
      | .hihat => band_energy freqs mags 5000 10000)
    .kick [.snare, .hihat]

/-- classify_drum_hit (drum_classifier.py lines 24-84). The fallible numpy
computation |np.fft.rfft(window)| is the parameter fftMag; the try/except
around the body turns any failure into the default class snare. -/
def classify_drum_hit (fftMag : List ℚ → Except String (List ℚ))
    (y : List ℚ) (sr : ℚ) (onset_sample : ℤ) (window_size : ℕ) : DrumType :=
  match fftMag (hit_window y onset_sample window_size) with
  | .ok magnitudes =>
      classify_from_bands (rfftfreq (hit_window y onset_sample window_size).length sr)
        magnitudes
  | .error _ => .snare

/-- The per-class buckets built by classify_drum_pattern
(drum_classifier.py lines 125-129). -/
structure DrumPattern where
  kick : List ℚ
  snare : List ℚ
  hihat : List ℚ
deriving DecidableEq, Repr

/-- classify_drum_pattern's main loop (drum_classifier.py lines 125-150):
for each onset time, convert to a sample index, classify the hit, and
append the original onset time to the bucket of the returned class.
The loaded audio buffer y and sample rate sr are the result of
librosa.load; fftMag is the fallible FFT-magnitude computation. -/
def classify_drum_pattern (fftMag : List ℚ → Except String (List ℚ))
    (y : List ℚ) (sr : ℚ) (onset_times : List ℚ) : DrumPattern :=
  onset_times.foldl
    (fun pat t =>
      match classify_drum_hit fftMag y sr (onset_sample_of t sr) 2048 with
      | .kick => { pat with kick := pat.kick ++ [t] }
      | .snare => { pat with snare := pat.snare ++ [t] }
      | .hihat => { pat with hihat := pat.hihat ++ [t] })
    ⟨[], [], []⟩

/-- get_drum_midi_pattern (drum_classifier.py lines 157-196): classify,
expand each bucket (dict iteration order kick, snare, hihat) into
(time, midi_note) pairs, then sort by time (Python's stable sort). -/
def get_drum_midi_pattern (fftMag : List ℚ → Except String (List ℚ))
    (y : List ℚ) (sr : ℚ) (onset_times : List ℚ) : List (ℚ × ℕ) :=
  let drum_pattern := classify_drum_pattern fftMag y sr onset_times
  let midi_pattern :=
    (drum_pattern.kick.map fun t => (t, DRUM_MIDI_NOTES .kick)) ++
    (drum_pattern.snare.map fun t => (t, DRUM_MIDI_NOTES .snare)) ++
    (drum_pattern.hihat.map fun t => (t, DRUM_MIDI_NOTES .hihat))
  midi_pattern.mergeSort fun a b => decide (a.1 ≤ b.1)

/-- The spec's classification rule, stated from the spec's words: pick the
class whose band sum is largest; ties resolve to whichever class comes
first in the fixed iteration order kick, snare, hihat. Used only to be
compared against classify_from_bands. -/
def spec_pick_largest_first (k s h : ℚ) : DrumType :=
  if s ≤ k ∧ h ≤ k then .kick
  else if h ≤ s then .snare
  else .hihat

/-- C2: classify_drum_hit's band decision equals the spec's rule: the class
with the largest band sum wins, ties resolve to the first of kick, snare,
hihat in iteration order; in particular an all-zero (silent) magnitude
spectrum classifies as kick. -/
theorem classify_from_bands_max_first_tiebreak (freqs mags : List ℚ) :
    classify_from_bands freqs mags =
      spec_pick_largest_first (band_energy freqs mags 20 100)
        (band_energy freqs mags 150 250) (band_energy freqs mags 5000 10000) ∧
    ((∀ m ∈ mags, m = 0) → classify_from_bands freqs mags = .kick) := by
  constructor
  · set k := band_energy freqs mags 20 100 with hk
    set s := band_energy freqs mags 150 250 with hs
    set h := band_energy freqs mags 5000 10000 with hh
    simp only [classify_from_bands, pyMaxByKey, List.foldl, spec_pick_largest_first, ← hk, ← hs,
      ← hh]
    split_ifs <;> simp_all <;> linarith
  · intro hz
    have hzero : ∀ lo hi : ℚ, band_energy freqs mags lo hi = 0 := by
      intro lo hi
      apply List.sum_eq_zero
      intro x hx
      simp only [band_energy, List.mem_map, List.mem_filter] at hx
      obtain ⟨p, ⟨hpmem, _⟩, rfl⟩ := hx
      exact hz p.2 (List.of_mem_zip hpmem).2
    simp only [classify_from_bands, pyMaxByKey, List.foldl, hzero]
    norm_num

/-- Witness for C2 at a concrete input: the silent spectrum [(50, 0)]
classifies as kick. -/
theorem classify_from_bands_max_first_tiebreak_witness :
    classify_from_bands [(50 : ℚ)] [(0 : ℚ)] = DrumType.kick :=
  (classify_from_bands_max_first_tiebreak [(50 : ℚ)] [(0 : ℚ)]).2
    (by intro m hm; simpa using hm)

/-- C3 (amended): the sample index used by classify_drum_pattern is
int(onset_time * sr), which for a nonnegative product is the floor
(truncation toward zero), not rounding to the nearest integer. -/
theorem onset_sample_truncates (t sr : ℚ) (h : 0 ≤ t * sr) :
    onset_sample_of t sr = ⌊t * sr⌋ := by
  simp [onset_sample_of, pyInt, h]

/-- Witness for C3's amended theorem at t = 2/5, sr = 4. -/
theorem onset_sample_truncates_witness :
    onset_sample_of (2 / 5) 4 = ⌊(2 / 5 : ℚ) * 4⌋ :=
  onset_sample_truncates (2 / 5) 4 (by norm_num)

/-- C3 counterexample: at onset time 2/5 s and sample rate 4 Hz the product
is 8/5; the code computes sample index 1 (truncation), while rounding to
the nearest integer gives 2, so the claim's round(t * sr) is false. -/
theorem onset_sample_not_round_counterexample :
    onset_sample_of (2 / 5) 4 = 1 ∧ round ((2 / 5 : ℚ) * 4) = 2 ∧
      onset_sample_of (2 / 5) 4 ≠ round ((2 / 5 : ℚ) * 4) := by
  refine ⟨?_, ?_, ?_⟩ <;> norm_num [onset_sample_of, pyInt, round_eq]

/-- C4: when the per-onset analysis (the FFT-magnitude computation on the
extracted window) fails, classify_drum_hit returns the default class snare;
the embedded function is total, so no exception escapes. -/
theorem classify_drum_hit_fallback_snare
    (fftMag : List ℚ → Except String (List ℚ)) (y : List ℚ) (sr : ℚ)
    (onset_sample : ℤ) (window_size : ℕ) (e : String)
    (hfail : fftMag (hit_window y onset_sample window_size) = .error e) :
    classify_drum_hit fftMag y sr onset_sample window_size = .snare := by
  simp [classify_drum_hit, hfail]

/-- Witness for C4: a concrete always-failing analysis yields snare. -/
theorem classify_drum_hit_fallback_snare_witness :
    classify_drum_hit (fun _ => .error "fft failed") [] 1 0 2048 =
      DrumType.snare :=
  classify_drum_hit_fallback_snare (fun _ => .error "fft failed") [] 1 0 2048
    "fft failed" rfl

/-- filter_weak_onsets (onset_detector.py lines 177-205): the list
comprehension [time for time, strength in onsets_with_strength
if strength >= min_strength]. -/
def filter_weak_onsets (onsets_with_strength : List (ℚ × ℚ))
    (min_strength : ℚ) : List ℚ :=
  onsets_with_strength.filterMap fun p =>
    if min_strength ≤ p.2 then some p.1 else none

/-- The maximum element of a numpy array given as a list; numpy's .max() is
only called on nonempty arrays in the source, the empty case is a dummy. -/
def np_max : List ℚ → ℚ
  | [] => 0
  | x :: xs => xs.foldl max x

/-- The normalization step of detect_onsets_with_strength
(onset_detector.py lines 156-161): if the strength array is nonempty and
its maximum is positive, divide every raw strength by that maximum;
otherwise return the raw strengths unchanged. -/
def normalize_strengths (onset_strengths : List ℚ) : List ℚ :=
  if 0 < onset_strengths.length then
    let max_strength := np_max onset_strengths
    if 0 < max_strength then onset_strengths.map fun s => s / max_strength
    else onset_strengths
  else onset_strengths

lemma np_max_le_of_mem : ∀ (x : ℚ) (xs : List ℚ), ∀ y ∈ x :: xs,
    y ≤ xs.foldl max x := by
  intro x xs
  induction xs generalizing x with
  | nil => intro y hy; simp at hy; simp [hy]
  | cons a l ih =>
    intro y hy
    simp only [List.mem_cons] at hy
    rcases hy with rfl | rfl | hy
    · exact le_trans (le_max_left y a) (ih (max y a) (max y a) (by simp))
    · exact le_trans (le_max_right x y) (ih (max x y) (max x y) (by simp))
    · exact ih (max x a) y (by simp [hy])

lemma np_max_mem : ∀ (x : ℚ) (xs : List ℚ), xs.foldl max x ∈ x :: xs := by
  intro x xs
  induction xs generalizing x with
  | nil => simp
  | cons a l ih =>
    have h := ih (max x a)
    rcases List.mem_cons.mp h with h | h
    · show List.foldl max (max x a) l ∈ x :: a :: l
      rw [h]
      rcases max_choice x a with hm | hm <;> rw [hm] <;> simp
    · show List.foldl max (max x a) l ∈ x :: a :: l
      simp [h]

/-- C9: the normalization of detect_onsets_with_strength. For nonnegative
raw envelope magnitudes: when the maximum is positive, every returned
strength is the raw value divided by the maximum, the loudest onset gets
strength exactly 1, and all strengths lie in [0, 1]; when the maximum is
0 the raw strengths are returned unchanged (all 0). -/
theorem normalize_strengths_spec (raws : List ℚ)
    (hnn : ∀ r ∈ raws, 0 ≤ r) :
    (raws ≠ [] → 0 < np_max raws →
      normalize_strengths raws = raws.map (fun s => s / np_max raws) ∧
      (1 : ℚ) ∈ normalize_strengths raws ∧
      ∀ s ∈ normalize_strengths raws, 0 ≤ s ∧ s ≤ 1) ∧
    (np_max raws = 0 → normalize_strengths raws = raws ∧ ∀ r ∈ raws, r = 0) := by
  constructor
  · intro hne hpos
    obtain ⟨x, xs, rfl⟩ := List.exists_cons_of_ne_nil hne
    have hlen : 0 < (x :: xs).length := by simp
    have hmap : normalize_strengths (x :: xs) =
        (x :: xs).map fun s => s / np_max (x :: xs) := by
      simp only [normalize_strengths, if_pos hlen, if_pos hpos]
    refine ⟨hmap, ?_, ?_⟩
    · rw [hmap]
      have hmem : np_max (x :: xs) ∈ x :: xs := np_max_mem x xs
      exact List.mem_map.mpr ⟨np_max (x :: xs), hmem, div_self (ne_of_gt hpos)⟩
    · intro s hs
      rw [hmap] at hs
      obtain ⟨r, hr, rfl⟩ := List.mem_map.mp hs
      constructor
      · exact div_nonneg (hnn r hr) (le_of_lt hpos)
      · exact (div_le_one hpos).mpr (np_max_le_of_mem x xs r hr)
  · intro hzero
    have hall : ∀ r ∈ raws, r = 0 := by
      intro r hr
      refine le_antisymm ?_ (hnn r hr)
      cases raws with
      | nil => simp at hr
      | cons x xs =>
        have := np_max_le_of_mem x xs r hr
        simpa [np_max, hzero] using hzero ▸ this
    refine ⟨?_, hall⟩
    simp only [normalize_strengths]
    split
    · rw [if_neg (by rw [hzero]; exact lt_irrefl 0)]
    · rfl

/-- Witness for C9 at raws = [1, 2]: max is 2, output is [1/2, 1]. -/
theorem normalize_strengths_spec_witness :
    normalize_strengths [1, 2] = [(1 : ℚ) / 2, 2 / 2] ∧
      (1 : ℚ) ∈ normalize_strengths [1, 2] :=
  have h := (normalize_strengths_spec [1, 2] (by
    intro r hr
    simp only [List.mem_cons, List.not_mem_nil, or_false] at hr
    rcases hr with rfl | rfl <;> norm_num)).1 (by simp) (by norm_num [np_max])
  ⟨by simpa [np_max] using h.1, h.2.1⟩

/-- C8 (amended): filter_weak_onsets returns the times, in input order, of
exactly the events whose strength is at least the threshold (strict
inequality excluded); at threshold 0 it returns the full list of input
times unchanged provided every strength is nonnegative, as the strengths
produced by the detector are. -/
theorem filter_weak_onsets_keeps_threshold (events : List (ℚ × ℚ))
    (min_strength : ℚ) :
    filter_weak_onsets events min_strength =
      (events.filter fun p => decide (min_strength ≤ p.2)).map Prod.fst ∧
    ((∀ p ∈ events, 0 ≤ p.2) →
      filter_weak_onsets events 0 = events.map Prod.fst) := by
  constructor
  · induction events with
    | nil => rfl
    | cons a l ih =>
      simp only [filter_weak_onsets, List.filterMap_cons, List.filter_cons] at ih ⊢
      by_cases h : min_strength ≤ a.2
      · simp [h, ih]
      · simp [h, ih]
  · intro hnn
    induction events with
    | nil => rfl
    | cons a l ih =>
      have ha : (0 : ℚ) ≤ a.2 := hnn a (by simp)
      simp only [filter_weak_onsets, List.filterMap_cons, if_pos ha, List.map_cons] at ih ⊢
      rw [ih (fun p hp => hnn p (by simp [hp]))]

/-- Witness for C8's amended theorem at events = [(1, 1/2), (2, 0)] and
threshold 0: all strengths are nonnegative, so both times come back. -/
theorem filter_weak_onsets_keeps_threshold_witness :
    filter_weak_onsets [((1 : ℚ), (1 : ℚ) / 2), (2, 0)] 0 = [1, 2] := by
  have h := (filter_weak_onsets_keeps_threshold [((1 : ℚ), (1 : ℚ) / 2), (2, 0)] 0).2
    (by
      intro p hp
      simp only [List.mem_cons, List.not_mem_nil, or_false] at hp
      rcases hp with rfl | rfl <;> norm_num)
  simpa using h

/-- C8 counterexample: at events = [(0, -1)] and threshold 0 the code
returns [], dropping the event entirely, so filterWeak(events, 0) is not
the identity on its input (the event's time 0 is absent from the output). -/
theorem filter_weak_onsets_zero_counterexample :
    filter_weak_onsets [((0 : ℚ), (-1 : ℚ))] 0 = [] ∧
      ([] : List ℚ) ≠ [((0 : ℚ), (-1 : ℚ))].map Prod.fst := by
  constructor
  · simp [filter_weak_onsets]
  · simp

/-- The Python exception classes raised by the audio-processing modules. -/
inductive PyExc where
  | fileNotFound (m : String)
  | valueError (m : String)
  | runtimeError (m : String)
  | importError (m : String)
  | osError (m : String)
deriving DecidableEq, Repr

/-- str(e): the message carried by an exception. -/
def PyExc.msg : PyExc → String
  | .fileNotFound m => m
  | .valueError m => m
  | .runtimeError m => m
  | .importError m => m
  | .osError m => m

/-- The dictionary returned by get_audio_info (utils.py lines 173-219). -/
structure AudioInfo where
  duration_seconds : ℚ
  sample_rate : ℕ
  channels : ℕ
  format : String
  file_size_mb : ℚ
deriving DecidableEq, Repr

/-- The outcomes of every external call made during one run of
process_audio_snippet: filesystem checks, pydub loads, directory
creation, audio export and spleeter separation. Each field records what
the call would return or raise on this run. -/
structure AudioEnv where
  validate_result : Bool × String
  original_info : Except PyExc AudioInfo
  trim_file_exists : Bool
  audio_duration_ms : Except PyExc ℕ
  trim_makedirs : Except PyExc Unit
  export_result : Except PyExc Unit
  makedirs_trimmed : Except PyExc Unit
  makedirs_stems : Except PyExc Unit
  trimmed_info : Except PyExc AudioInfo
  separate_result : Except PyExc (List (String × String))
  snippet_id : String

/-- The try block of trim_audio (utils.py lines 66-107): load the audio
(duration in ms), reject an end time beyond the audio duration with a
ValueError, create the output directory and export. -/
def trim_audio_try (env : AudioEnv) (output_path : String)
    (end_time_seconds : ℚ) : Except PyExc String :=
  match env.audio_duration_ms with
  | .error e => .error e
  | .ok audio_duration_ms =>
    let audio_duration_seconds : ℚ := (audio_duration_ms : ℚ) / 1000
    if audio_duration_seconds < end_time_seconds then
      .error (.valueError ("End time " ++ toString end_time_seconds ++
        "s exceeds audio duration " ++ toString audio_duration_seconds ++ "s"))
    else
      match env.trim_makedirs with
      | .error e => .error e
      | .ok _ =>
        match env.export_result with
        | .error e => .error e
        | .ok _ => .ok output_path

/-- trim_audio (utils.py lines 16-117): existence check, time-range
validation (nonnegative start, end greater than start, duration within
15-90 s), then the try block; an ImportError from the body is re-raised
as ImportError, any other exception is re-raised as
RuntimeError("Failed to trim audio: " + str(e)). -/
def trim_audio (env : AudioEnv) (audio_path output_path : String)
    (start_time_seconds end_time_seconds : ℚ) : Except PyExc String :=
  if ¬ env.trim_file_exists then
    .error (.fileNotFound ("Audio file not found: " ++ audio_path))
  else if start_time_seconds < 0 then
    .error (.valueError "Start time cannot be negative")
  else if end_time_seconds ≤ start_time_seconds then
    .error (.valueError "End time must be greater than start time")
  else if end_time_seconds - start_time_seconds < 15 then
    .error (.valueError ("Duration too short: " ++
      toString (end_time_seconds - start_time_seconds) ++
      "s. Minimum is 15 seconds."))
  else if 90 < end_time_seconds - start_time_seconds then
    .error (.valueError ("Duration too long: " ++
      toString (end_time_seconds - start_time_seconds) ++
      "s. Maximum is 90 seconds."))
  else
    match trim_audio_try env output_path end_time_seconds with
    | .ok p => .ok p
    | .error (.importError _) =>
      .error (.importError "pydub is not installed. Run: pip install pydub")
    | .error e => .error (.runtimeError ("Failed to trim audio: " ++ e.msg))

/-- AudioProcessingResult (audio_service.py lines 20-42). Metadata values
are rendered to strings; the claims only inspect emptiness. -/
structure AudioProcessingResult where
  success : Bool
  stem_paths : List (String × String)
  metadata : List (String × String)
  error : Option String
deriving DecidableEq, Repr

/-- The AudioProcessingResult constructor: stem_paths and metadata default
to empty mappings when not supplied (the stem_paths or {} idiom). -/
def mkResult (success : Bool) (stem_paths : Option (List (String × String)))
    (metadata : Option (List (String × String))) (error : Option String) :
    AudioProcessingResult :=
  ⟨success, stem_paths.getD [], metadata.getD [], error⟩

/-- Path(p).name: the final path component. -/
def path_name (p : String) : String :=
  (p.splitOn "/").getLastD p

/-- The metadata dictionary built at audio_service.py lines 159-170. -/
def snippet_metadata (env : AudioEnv) (audio_path : String)
    (start_time_seconds end_time_seconds : ℚ)
    (original_info trimmed_info : AudioInfo) (extract_stems : Bool)
    (stem_paths : List (String × String)) : List (String × String) :=
  [("snippet_id", env.snippet_id),
   ("original_file", path_name audio_path),
   ("original_duration_seconds", toString original_info.duration_seconds),
   ("snippet_duration_seconds", toString trimmed_info.duration_seconds),
   ("start_time", toString start_time_seconds),
   ("end_time", toString end_time_seconds),
   ("sample_rate", toString trimmed_info.sample_rate),
   ("channels", toString trimmed_info.channels),
   ("stems_extracted", toString extract_stems),
   ("num_stems", toString stem_paths.length)]

/-- The outer try block of process_audio_snippet (audio_service.py lines
85-189): validation, original-info lookup, trimming (with the inner
except ValueError handler producing the "Trimming failed" result),
trimmed-info lookup, optional stem separation (its inner except Exception
producing the "Stem separation failed" result), metadata and the success
result. The cleanup step removes files but never alters the result (its
own failures are caught and only logged). An Except.error value models an
exception propagating to the outer handler. -/
def process_audio_snippet_try (env : AudioEnv) (audio_path : String)
    (start_time_seconds end_time_seconds : ℚ) (output_base_dir : String)
    (extract_stems : Bool) : Except PyExc AudioProcessingResult :=
  let (is_valid, error_msg) := env.validate_result
  if ¬ is_valid then
    .ok (mkResult false none none (some ("Validation failed: " ++ error_msg)))
  else
    match env.original_info with
    | .error e => .error e
    | .ok original_info =>
      match env.makedirs_trimmed with
      | .error e => .error e
      | .ok _ =>
        let trimmed_path := output_base_dir ++ "/trimmed/snippet_" ++
          env.snippet_id ++ ".wav"
        match trim_audio env audio_path trimmed_path start_time_seconds
            end_time_seconds with
        | .error (.valueError m) =>
          .ok (mkResult false none none (some ("Trimming failed: " ++ m)))
        | .error e => .error e
        | .ok _trimmed_path =>
          match env.trimmed_info with
          | .error e => .error e
          | .ok trimmed_info =>
            let finish : List (String × String) → AudioProcessingResult :=
              fun stem_paths =>
                mkResult true (some stem_paths)
                  (some (snippet_metadata env audio_path start_time_seconds
                    end_time_seconds original_info trimmed_info extract_stems
                    stem_paths)) none
            if extract_stems then
              match env.makedirs_stems with
              | .error e => .error e
              | .ok _ =>
                match env.separate_result with
                | .error e =>
                  .ok (mkResult false none none
                    (some ("Stem separation failed: " ++ e.msg)))
                | .ok stem_paths => .ok (finish stem_paths)
            else .ok (finish [])

/-- process_audio_snippet (audio_service.py lines 45-206): the try body
above wrapped in the orchestrator-level except Exception handler, which
turns any propagated exception into a generic failure result
"Processing error: " + str(e) after best-effort cleanup. -/
def process_audio_snippet (env : AudioEnv) (audio_path : String)
    (start_time_seconds end_time_seconds : ℚ) (output_base_dir : String)
    (extract_stems : Bool) : AudioProcessingResult :=
  match process_audio_snippet_try env audio_path start_time_seconds
      end_time_seconds output_base_dir extract_stems with
  | .ok r => r
  | .error e =>
    mkResult false none none (some ("Processing error: " ++ e.msg))

lemma append_ne_empty_of_left_ne_empty (a b : String) (h : 0 < a.length) :
    a ++ b ≠ "" := by
  intro hc
  have h2 : (a ++ b).length = 0 := by rw [hc]; rfl
  rw [String.length_append] at h2
  omega

/-- Shape of every AudioProcessingResult: success with no error, or
failure with a nonempty error and empty stem_paths and metadata. -/
def resultShape (r : AudioProcessingResult) : Prop :=
  (r.success = true ∧ r.error = none) ∨
  (r.success = false ∧ r.stem_paths = [] ∧ r.metadata = [] ∧
    ∃ m, r.error = some m ∧ m ≠ "")

lemma process_audio_snippet_try_ok_shape (env : AudioEnv)
    (audio_path : String) (start_time_seconds end_time_seconds : ℚ)
    (output_base_dir : String) (extract_stems : Bool)
    (r : AudioProcessingResult)
    (h : process_audio_snippet_try env audio_path start_time_seconds
      end_time_seconds output_base_dir extract_stems = .ok r) :
    resultShape r := by
  revert h
  simp only [process_audio_snippet_try]
  split
  · intro h
    injection h with h2
    subst h2
    exact Or.inr ⟨rfl, rfl, rfl, _, rfl,
      append_ne_empty_of_left_ne_empty "Validation failed: " _ (by decide)⟩
  · split
    · intro h; exact Except.noConfusion h
    · split
      · intro h; exact Except.noConfusion h
      · split
        · intro h
          injection h with h2
          subst h2
          exact Or.inr ⟨rfl, rfl, rfl, _, rfl,
            append_ne_empty_of_left_ne_empty "Trimming failed: " _ (by decide)⟩
        · intro h; exact Except.noConfusion h
        · split
          · intro h; exact Except.noConfusion h
          · split
            · split
              · intro h; exact Except.noConfusion h
              · split
                · intro h
                  injection h with h2
                  subst h2
                  exact Or.inr ⟨rfl, rfl, rfl, _, rfl,
                    append_ne_empty_of_left_ne_empty "Stem separation failed: " _
                      (by decide)⟩
                · intro h
                  injection h with h2
                  subst h2
                  exact Or.inl ⟨rfl, rfl⟩
            · intro h
              injection h with h2
              subst h2
              exact Or.inl ⟨rfl, rfl⟩

/-- Shared shape lemma: every result of process_audio_snippet satisfies
resultShape. -/
lemma process_audio_snippet_shape (env : AudioEnv) (audio_path : String)
    (start_time_seconds end_time_seconds : ℚ) (output_base_dir : String)
    (extract_stems : Bool) :
    resultShape (process_audio_snippet env audio_path start_time_seconds
      end_time_seconds output_base_dir extract_stems) := by
  unfold process_audio_snippet
  cases h : process_audio_snippet_try env audio_path start_time_seconds
      end_time_seconds output_base_dir extract_stems with
  | ok r =>
    exact process_audio_snippet_try_ok_shape env audio_path
      start_time_seconds end_time_seconds output_base_dir extract_stems r h
  | error e =>
    exact Or.inr ⟨rfl, rfl, rfl, _, rfl,
      append_ne_empty_of_left_ne_empty "Processing error: " e.msg (by decide)⟩

lemma processing_error_ne_trimming_failed (a b : String) :
    ("Processing error: " ++ a) ≠ ("Trimming failed: " ++ b) := by
  intro h
  have h2 := congrArg String.data h
  simp [String.data_append] at h2

/-- C6: process_audio_snippet always returns an AudioProcessingResult (the
embedded function is total: the orchestrator-level handler catches every
propagated exception); a failure carries a nonempty error string and a
success is never partially built (its error is none). -/
theorem process_audio_snippet_total (env : AudioEnv) (audio_path : String)
    (start_time_seconds end_time_seconds : ℚ) (output_base_dir : String)
    (extract_stems : Bool) :
    ((process_audio_snippet env audio_path start_time_seconds
        end_time_seconds output_base_dir extract_stems).success = false →
      ∃ m, (process_audio_snippet env audio_path start_time_seconds
        end_time_seconds output_base_dir extract_stems).error = some m ∧
        m ≠ "") ∧
    ((process_audio_snippet env audio_path start_time_seconds
        end_time_seconds output_base_dir extract_stems).success = true →
      (process_audio_snippet env audio_path start_time_seconds
        end_time_seconds output_base_dir extract_stems).error = none) := by
  rcases process_audio_snippet_shape env audio_path start_time_seconds
      end_time_seconds output_base_dir extract_stems with
    ⟨hs, he⟩ | ⟨hs, _, _, m, hm, hne⟩
  · refine ⟨fun hf => ?_, fun _ => he⟩
    rw [hs] at hf
    exact absurd hf (by simp)
  · refine ⟨fun _ => ⟨m, hm, hne⟩, fun ht => ?_⟩
    rw [hs] at ht
    exact absurd ht (by simp)

/-- A sample AudioInfo value for concrete runs. -/
def infoSample : AudioInfo :=
  ⟨10, 44100, 2, "wav", 1⟩

/-- A concrete run whose validation step fails. -/
def envFailValidation : AudioEnv :=
  { validate_result := (false, "Unsupported format: .txt"),
    original_info := .ok infoSample,
    trim_file_exists := true,
    audio_duration_ms := .ok 60000,
    trim_makedirs := .ok (),
    export_result := .ok (),
    makedirs_trimmed := .ok (),
    makedirs_stems := .ok (),
    trimmed_info := .ok infoSample,
    separate_result := .ok [],
    snippet_id := "snip0001" }

/-- Witness for C6 at a concrete failing run. -/
theorem process_audio_snippet_total_witness :
    (process_audio_snippet envFailValidation "a.txt" 0 20 "out"
      true).success = false ∧
    ∃ m, (process_audio_snippet envFailValidation "a.txt" 0 20 "out"
      true).error = some m ∧ m ≠ "" :=
  ⟨by decide,
    (process_audio_snippet_total envFailValidation "a.txt" 0 20 "out"
      true).1 (by decide)⟩

/-- C10: the AudioProcessingResult invariant: a success has no error; a
failure has a nonempty error and empty stem_paths and metadata mappings. -/
theorem audio_processing_result_invariant (env : AudioEnv)
    (audio_path : String) (start_time_seconds end_time_seconds : ℚ)
    (output_base_dir : String) (extract_stems : Bool) :
    ((process_audio_snippet env audio_path start_time_seconds
        end_time_seconds output_base_dir extract_stems).success = true →
      (process_audio_snippet env audio_path start_time_seconds
        end_time_seconds output_base_dir extract_stems).error = none) ∧
    ((process_audio_snippet env audio_path start_time_seconds
        end_time_seconds output_base_dir extract_stems).success = false →
      (∃ m, (process_audio_snippet env audio_path start_time_seconds
        end_time_seconds output_base_dir extract_stems).error = some m ∧
        m ≠ "") ∧
      (process_audio_snippet env audio_path start_time_seconds
        end_time_seconds output_base_dir extract_stems).stem_paths = [] ∧
      (process_audio_snippet env audio_path start_time_seconds
        end_time_seconds output_base_dir extract_stems).metadata = []) := by
  rcases process_audio_snippet_shape env audio_path start_time_seconds
      end_time_seconds output_base_dir extract_stems with
    ⟨hs, he⟩ | ⟨hs, hsp, hmd, m, hm, hne⟩
  · refine ⟨fun _ => he, fun hf => ?_⟩
    rw [hs] at hf
    exact absurd hf (by simp)
  · refine ⟨fun ht => ?_, fun _ => ⟨⟨m, hm, hne⟩, hsp, hmd⟩⟩
    rw [hs] at ht
    exact absurd ht (by simp)

/-- A concrete run whose stem separation step fails. -/
def envFailSeparation : AudioEnv :=
  { validate_result := (true, ""),
    original_info := .ok infoSample,
    trim_file_exists := true,
    audio_duration_ms := .ok 60000,
    trim_makedirs := .ok (),
    export_result := .ok (),
    makedirs_trimmed := .ok (),
    makedirs_stems := .ok (),
    trimmed_info := .ok infoSample,
    separate_result := .error (.runtimeError "spleeter crashed"),
    snippet_id := "snip0002" }

lemma process_envFailSeparation_eq :
    process_audio_snippet envFailSeparation "a.wav" 0 20 "out" true =
      mkResult false none none
        (some ("Stem separation failed: " ++ "spleeter crashed")) := by
  simp only [process_audio_snippet, process_audio_snippet_try, trim_audio,
    trim_audio_try, envFailSeparation, PyExc.msg]
  norm_num

/-- Witness for C10 at a concrete run that fails during stem separation. -/
theorem audio_processing_result_invariant_witness :
    (process_audio_snippet envFailSeparation "a.wav" 0 20 "out"
      true).success = false ∧
    (∃ m, (process_audio_snippet envFailSeparation "a.wav" 0 20 "out"
      true).error = some m ∧ m ≠ "") ∧
    (process_audio_snippet envFailSeparation "a.wav" 0 20 "out"
      true).stem_paths = [] ∧
    (process_audio_snippet envFailSeparation "a.wav" 0 20 "out"
      true).metadata = [] :=
  ⟨by rw [process_envFailSeparation_eq]; rfl,
    (audio_processing_result_invariant envFailSeparation "a.wav" 0 20 "out"
      true).2 (by rw [process_envFailSeparation_eq]; rfl)⟩

/-- Shared helper: with an otherwise valid range whose end exceeds the
source duration, trim_audio returns the RuntimeError produced by its
catch-all from the internal ValueError. -/
lemma trim_audio_end_exceeds (env : AudioEnv)
    (audio_path output_path : String)
    (start_time_seconds end_time_seconds : ℚ) (ms : ℕ)
    (hex : env.trim_file_exists = true)
    (h0 : 0 ≤ start_time_seconds)
    (hse : start_time_seconds < end_time_seconds)
    (h15 : 15 ≤ end_time_seconds - start_time_seconds)
    (h90 : end_time_seconds - start_time_seconds ≤ 90)
    (hms : env.audio_duration_ms = .ok ms)
    (hdur : (ms : ℚ) / 1000 < end_time_seconds) :
    trim_audio env audio_path output_path start_time_seconds
      end_time_seconds =
    .error (.runtimeError ("Failed to trim audio: " ++
      ("End time " ++ toString end_time_seconds ++
        "s exceeds audio duration " ++ toString ((ms : ℚ) / 1000) ++
        "s"))) := by
  unfold trim_audio trim_audio_try
  rw [hex, hms]
  simp only [Bool.not_true, if_neg (by simp : ¬False)]
  rw [if_neg (not_lt.mpr h0), if_neg (not_le.mpr hse),
    if_neg (not_lt.mpr h15), if_neg (not_lt.mpr h90), if_pos hdur]
  rfl

/-- Shared helper: the orchestrator's result for the end-exceeds-duration
case is the generic processing failure, since the RuntimeError passes the
except-ValueError handler untouched. -/
lemma process_end_exceeds (env : AudioEnv) (audio_path : String)
    (start_time_seconds end_time_seconds : ℚ) (output_base_dir : String)
    (extract_stems : Bool) (vmsg : String) (info : AudioInfo) (ms : ℕ)
    (hex : env.trim_file_exists = true)
    (h0 : 0 ≤ start_time_seconds)
    (hse : start_time_seconds < end_time_seconds)
    (h15 : 15 ≤ end_time_seconds - start_time_seconds)
    (h90 : end_time_seconds - start_time_seconds ≤ 90)
    (hms : env.audio_duration_ms = .ok ms)
    (hdur : (ms : ℚ) / 1000 < end_time_seconds)
    (hv : env.validate_result = (true, vmsg))
    (hoi : env.original_info = .ok info)
    (hmkt : env.makedirs_trimmed = .ok ()) :
    process_audio_snippet env audio_path start_time_seconds
      end_time_seconds output_base_dir extract_stems =
    mkResult false none none
      (some ("Processing error: " ++ ("Failed to trim audio: " ++
        ("End time " ++ toString end_time_seconds ++
          "s exceeds audio duration " ++ toString ((ms : ℚ) / 1000) ++
          "s")))) := by
  unfold process_audio_snippet process_audio_snippet_try
  rw [hv]
  simp only [hoi, hmkt]
  have htrim := fun output_path =>
    trim_audio_end_exceeds env audio_path output_path start_time_seconds
      end_time_seconds ms hex h0 hse h15 h90 hms hdur
  simp only [htrim, PyExc.msg]
  simp

/-- C5 (amended): when the requested range is otherwise valid
(0 ≤ start < end, 15 ≤ end − start ≤ 90) but end exceeds the source
duration, the ValueError raised inside trim_audio's try block is rewrapped
by the catch-all into RuntimeError("Failed to trim audio: ..."), so the
orchestrator's except-ValueError handler does not fire and
process_audio_snippet returns a generic failure prefixed
"Processing error: ", never one prefixed "Trimming failed: ". -/
theorem trim_exceeds_duration_runtime_error (env : AudioEnv)
    (audio_path : String) (start_time_seconds end_time_seconds : ℚ)
    (output_base_dir : String) (extract_stems : Bool)
    (vmsg : String) (info : AudioInfo) (ms : ℕ)
    (hex : env.trim_file_exists = true)
    (h0 : 0 ≤ start_time_seconds)
    (hse : start_time_seconds < end_time_seconds)
    (h15 : 15 ≤ end_time_seconds - start_time_seconds)
    (h90 : end_time_seconds - start_time_seconds ≤ 90)
    (hms : env.audio_duration_ms = .ok ms)
    (hdur : (ms : ℚ) / 1000 < end_time_seconds)
    (hv : env.validate_result = (true, vmsg))
    (hoi : env.original_info = .ok info)
    (hmkt : env.makedirs_trimmed = .ok ()) :
    (∀ output_path,
      trim_audio env audio_path output_path start_time_seconds
        end_time_seconds =
      .error (.runtimeError ("Failed to trim audio: " ++
        ("End time " ++ toString end_time_seconds ++
          "s exceeds audio duration " ++ toString ((ms : ℚ) / 1000) ++
          "s")))) ∧
    (process_audio_snippet env audio_path start_time_seconds
      end_time_seconds output_base_dir extract_stems).success = false ∧
    (process_audio_snippet env audio_path start_time_seconds
      end_time_seconds output_base_dir extract_stems).error =
      some ("Processing error: " ++ ("Failed to trim audio: " ++
        ("End time " ++ toString end_time_seconds ++
          "s exceeds audio duration " ++ toString ((ms : ℚ) / 1000) ++
          "s"))) ∧
    ∀ t, (process_audio_snippet env audio_path start_time_seconds
      end_time_seconds output_base_dir extract_stems).error ≠
        some ("Trimming failed: " ++ t) := by
  have hproc := process_end_exceeds env audio_path start_time_seconds
    end_time_seconds output_base_dir extract_stems vmsg info ms hex h0 hse
    h15 h90 hms hdur hv hoi hmkt
  refine ⟨fun output_path => trim_audio_end_exceeds env audio_path
    output_path start_time_seconds end_time_seconds ms hex h0 hse h15 h90
    hms hdur, ?_, ?_, ?_⟩
  · rw [hproc]; rfl
  · rw [hproc]; rfl
  · intro t
    rw [hproc]
    intro hc
    have h2 := Option.some.inj hc
    exact processing_error_ne_trimming_failed _ t h2

/-- A concrete run of a valid 20 s trim request over a 10 s source. -/
def envTrimExceeds : AudioEnv :=
  { validate_result := (true, ""),
    original_info := .ok infoSample,
    trim_file_exists := true,
    audio_duration_ms := .ok 10000,
    trim_makedirs := .ok (),
    export_result := .ok (),
    makedirs_trimmed := .ok (),
    makedirs_stems := .ok (),
    trimmed_info := .ok infoSample,
    separate_result := .ok [],
    snippet_id := "snip0003" }

/-- Witness for C5's amended theorem at the concrete 10 s source. -/
theorem trim_exceeds_duration_runtime_error_witness :
    trim_audio envTrimExceeds "a.wav" "out/trimmed/snippet_snip0003.wav" 0
      20 =
    .error (.runtimeError ("Failed to trim audio: " ++
      ("End time " ++ toString (20 : ℚ) ++ "s exceeds audio duration " ++
        toString (((10000 : ℕ) : ℚ) / 1000) ++ "s"))) :=
  (trim_exceeds_duration_runtime_error envTrimExceeds "a.wav" 0 20 "out"
    true "" infoSample 10000 rfl (by norm_num) (by norm_num) (by norm_num)
    (by norm_num) rfl (by norm_num) rfl rfl rfl).1
    "out/trimmed/snippet_snip0003.wav"

/-- C5 counterexample: a trim request with start 0, end 20 over a 10 s
source (range otherwise valid) makes trim_audio raise RuntimeError, not
ValueError, and the orchestrator returns an error prefixed
"Processing error: ", not one prefixed "Trimming failed", refuting the
claim. -/
theorem trim_exceeds_duration_counterexample :
    trim_audio envTrimExceeds "a.wav" "out/trimmed/snippet_snip0003.wav" 0
      20 =
    .error (.runtimeError
      "Failed to trim audio: End time 20s exceeds audio duration 10s") ∧
    (process_audio_snippet envTrimExceeds "a.wav" 0 20 "out" true).error =
      some
        "Processing error: Failed to trim audio: End time 20s exceeds audio duration 10s" ∧
    List.isPrefixOf "Trimming failed".data
      "Processing error: Failed to trim audio: End time 20s exceeds audio duration 10s".data =
      false := by
  have hdiv : ((10000 : ℕ) : ℚ) / 1000 = 10 := by norm_num
  have htrim := trim_audio_end_exceeds envTrimExceeds "a.wav"
    "out/trimmed/snippet_snip0003.wav" 0 20 10000 rfl (by norm_num)
    (by norm_num) (by norm_num) (by norm_num) rfl (by norm_num)
  have hproc := process_end_exceeds envTrimExceeds "a.wav" 0 20 "out" true
    "" infoSample 10000 rfl (by norm_num) (by norm_num) (by norm_num)
    (by norm_num) rfl (by norm_num) rfl rfl rfl
  rw [hdiv] at htrim hproc
  have hs1 : ("Failed to trim audio: " ++
      ("End time " ++ toString (20 : ℚ) ++ "s exceeds audio duration " ++
        toString (10 : ℚ) ++ "s")) =
      "Failed to trim audio: End time 20s exceeds audio duration 10s" := by
    decide
  have hs2 : ("Processing error: " ++ ("Failed to trim audio: " ++
      ("End time " ++ toString (20 : ℚ) ++ "s exceeds audio duration " ++
        toString (10 : ℚ) ++ "s"))) =
      "Processing error: Failed to trim audio: End time 20s exceeds audio duration 10s" := by
    decide
  refine ⟨?_, ?_, by decide⟩
  · rw [htrim, hs1]
  · rw [hproc]
    show some _ = _
    rw [hs2]

/-- Each bucket of classify_drum_pattern is the input list filtered by the
class assigned to that onset (classification of one onset depends only on
the onset itself, the buffer, the rate and the FFT). -/
lemma classify_drum_pattern_eq_filters
    (fftMag : List ℚ → Except String (List ℚ)) (y : List ℚ) (sr : ℚ)
    (onset_times : List ℚ) :
    classify_drum_pattern fftMag y sr onset_times =
      ⟨onset_times.filter fun t =>
          decide (classify_drum_hit fftMag y sr (onset_sample_of t sr) 2048 = .kick),
        onset_times.filter fun t =>
          decide (classify_drum_hit fftMag y sr (onset_sample_of t sr) 2048 = .snare),
        onset_times.filter fun t =>
          decide (classify_drum_hit fftMag y sr (onset_sample_of t sr) 2048 = .hihat)⟩ := by
  have go : ∀ (l : List ℚ) (acc : DrumPattern),
      List.foldl
        (fun pat t =>
          match classify_drum_hit fftMag y sr (onset_sample_of t sr) 2048 with
          | .kick => { pat with kick := pat.kick ++ [t] }
          | .snare => { pat with snare := pat.snare ++ [t] }
          | .hihat => { pat with hihat := pat.hihat ++ [t] }) acc l =
      ⟨acc.kick ++ (l.filter fun t =>
          decide (classify_drum_hit fftMag y sr (onset_sample_of t sr) 2048 = .kick)),
        acc.snare ++ (l.filter fun t =>
          decide (classify_drum_hit fftMag y sr (onset_sample_of t sr) 2048 = .snare)),
        acc.hihat ++ (l.filter fun t =>
          decide (classify_drum_hit fftMag y sr (onset_sample_of t sr) 2048 = .hihat))⟩ := by
    intro l
    induction l with
    | nil => intro acc; simp
    | cons t l ih =>
      intro acc
      rw [List.foldl_cons]
      cases h : classify_drum_hit fftMag y sr (onset_sample_of t sr) 2048 with
      | kick =>
        simp only [h, ih, List.filter_cons, h, decide_eq_true_eq]
        simp [List.append_assoc]
      | snare =>
        simp only [h, ih, List.filter_cons, h, decide_eq_true_eq]
        simp [List.append_assoc]
      | hihat =>
        simp only [h, ih, List.filter_cons, h, decide_eq_true_eq]
        simp [List.append_assoc]
  unfold classify_drum_pattern
  rw [go]
  rfl

/-- Any three-way partition of a list by the class a classifier assigns,
expressed as three filters, is a permutation of the list. -/
lemma filter_three_perm (c : ℚ → DrumType) : ∀ l : List ℚ,
    ((l.filter fun t => decide (c t = .kick)) ++
      (l.filter fun t => decide (c t = .snare)) ++
      (l.filter fun t => decide (c t = .hihat))).Perm l := by
  intro l
  induction l with
  | nil => simp
  | cons t l ih =>
    cases h : c t with
    | kick =>
      simp only [List.filter_cons, h, reduceCtorEq, decide_False, decide_True,
        if_true, if_false, List.cons_append]
      exact ih.cons t
    | snare =>
      simp only [List.filter_cons, h, reduceCtorEq, decide_False, decide_True,
        if_true, if_false]
      refine List.Perm.trans ?_ (ih.cons t)
      rw [List.append_assoc, List.append_assoc]
      exact List.perm_middle
    | hihat =>
      simp only [List.filter_cons, h, reduceCtorEq, decide_False, decide_True,
        if_true, if_false]
      exact List.Perm.trans List.perm_middle (ih.cons t)

/-- The three buckets together are a permutation of the input. -/
lemma classify_drum_pattern_perm
    (fftMag : List ℚ → Except String (List ℚ)) (y : List ℚ) (sr : ℚ)
    (onset_times : List ℚ) :
    ((classify_drum_pattern fftMag y sr onset_times).kick ++
      (classify_drum_pattern fftMag y sr onset_times).snare ++
      (classify_drum_pattern fftMag y sr onset_times).hihat).Perm
      onset_times := by
  rw [classify_drum_pattern_eq_filters]
  exact filter_three_perm
    (fun t => classify_drum_hit fftMag y sr (onset_sample_of t sr) 2048)
    onset_times

/-- C1: classify_drum_pattern drops and duplicates nothing: the bucket
lengths sum to the input length, the three buckets together are a
permutation (equal multiset) of the input onset list, and ascending input
yields ascending buckets. -/
theorem classify_drum_pattern_conservation
    (fftMag : List ℚ → Except String (List ℚ)) (y : List ℚ) (sr : ℚ)
    (onset_times : List ℚ) :
    (classify_drum_pattern fftMag y sr onset_times).kick.length +
      (classify_drum_pattern fftMag y sr onset_times).snare.length +
      (classify_drum_pattern fftMag y sr onset_times).hihat.length =
      onset_times.length ∧
    ((classify_drum_pattern fftMag y sr onset_times).kick ++
      (classify_drum_pattern fftMag y sr onset_times).snare ++
      (classify_drum_pattern fftMag y sr onset_times).hihat).Perm
      onset_times ∧
    (onset_times.Sorted (· ≤ ·) →
      (classify_drum_pattern fftMag y sr onset_times).kick.Sorted (· ≤ ·) ∧
      (classify_drum_pattern fftMag y sr onset_times).snare.Sorted (· ≤ ·) ∧
      (classify_drum_pattern fftMag y sr onset_times).hihat.Sorted (· ≤ ·)) := by
  have hperm := classify_drum_pattern_perm fftMag y sr onset_times
  refine ⟨?_, hperm, ?_⟩
  · have := hperm.length_eq
    simpa [List.length_append, Nat.add_assoc] using this
  · intro hsorted
    rw [classify_drum_pattern_eq_filters]
    exact ⟨hsorted.sublist (List.filter_sublist _),
      hsorted.sublist (List.filter_sublist _),
      hsorted.sublist (List.filter_sublist _)⟩

/-- An always-failing FFT computation, for concrete runs. -/
def fftFail : List ℚ → Except String (List ℚ) :=
  fun _ => .error "no fft"

/-- Witness for C1 at the ascending input [1, 2] under a failing FFT. -/
theorem classify_drum_pattern_conservation_witness :
    (classify_drum_pattern fftFail [] 1 [1, 2]).kick.length +
      (classify_drum_pattern fftFail [] 1 [1, 2]).snare.length +
      (classify_drum_pattern fftFail [] 1 [1, 2]).hihat.length = 2 ∧
    (classify_drum_pattern fftFail [] 1 [1, 2]).snare.Sorted (· ≤ ·) :=
  have h := classify_drum_pattern_conservation fftFail [] 1 [1, 2]
  ⟨h.1, (h.2.2 (by norm_num [List.sorted_cons])).2.1⟩

/-- C7: get_drum_midi_pattern returns pairs sorted ascending by time, the
pairs are exactly the bucket times tagged with the static table's note for
their class, and every note number is 36, 38 or 42. -/
theorem get_drum_midi_pattern_sorted_notes
    (fftMag : List ℚ → Except String (List ℚ)) (y : List ℚ) (sr : ℚ)
    (onset_times : List ℚ) :
    (get_drum_midi_pattern fftMag y sr onset_times).Sorted
      (fun a b => a.1 ≤ b.1) ∧
    (get_drum_midi_pattern fftMag y sr onset_times).Perm
      (((classify_drum_pattern fftMag y sr onset_times).kick.map
          fun t => (t, DRUM_MIDI_NOTES .kick)) ++
        ((classify_drum_pattern fftMag y sr onset_times).snare.map
          fun t => (t, DRUM_MIDI_NOTES .snare)) ++
        ((classify_drum_pattern fftMag y sr onset_times).hihat.map
          fun t => (t, DRUM_MIDI_NOTES .hihat))) ∧
    ∀ pr ∈ get_drum_midi_pattern fftMag y sr onset_times,
      pr.2 = 36 ∨ pr.2 = 38 ∨ pr.2 = 42 := by
  have htrans : ∀ a b c : ℚ × ℕ, decide (a.1 ≤ b.1) = true →
      decide (b.1 ≤ c.1) = true → decide (a.1 ≤ c.1) = true := by
    intro a b c h1 h2
    simp only [decide_eq_true_eq] at h1 h2 ⊢
    exact le_trans h1 h2
  have htotal : ∀ a b : ℚ × ℕ,
      (decide (a.1 ≤ b.1) || decide (b.1 ≤ a.1)) = true := by
    intro a b
    simp only [Bool.or_eq_true, decide_eq_true_eq]
    exact le_total a.1 b.1
  refine ⟨?_, ?_, ?_⟩
  · have hs := List.sorted_mergeSort htrans htotal
      ((((classify_drum_pattern fftMag y sr onset_times).kick.map
          fun t => (t, DRUM_MIDI_NOTES .kick)) ++
        ((classify_drum_pattern fftMag y sr onset_times).snare.map
          fun t => (t, DRUM_MIDI_NOTES .snare)) ++
        ((classify_drum_pattern fftMag y sr onset_times).hihat.map
          fun t => (t, DRUM_MIDI_NOTES .hihat))))
    simp only [get_drum_midi_pattern]
    exact hs.imp fun h => by simpa using h
  · simp only [get_drum_midi_pattern]
    exact List.mergeSort_perm _ _
  · intro pr hpr
    unfold get_drum_midi_pattern at hpr
    rw [List.mem_mergeSort] at hpr
    simp only [List.mem_append, List.mem_map] at hpr
    rcases hpr with (⟨t, _, rfl⟩ | ⟨t, _, rfl⟩) | ⟨t, _, rfl⟩
    · exact Or.inl rfl
    · exact Or.inr (Or.inl rfl)
    · exact Or.inr (Or.inr rfl)

/-- Witness for C7: in the pattern of the single onset 1 under a failing
FFT, the pair for onset 1 carries note 38. -/
theorem get_drum_midi_pattern_sorted_notes_witness :
    ((1 : ℚ), 38).2 = 36 ∨ ((1 : ℚ), 38).2 = 38 ∨ ((1 : ℚ), 38).2 = 42 :=
  (get_drum_midi_pattern_sorted_notes fftFail [] 1 [1]).2.2 ((1 : ℚ), 38)
    (by
      simp only [get_drum_midi_pattern, List.mem_mergeSort]
      decide)

end MiDiMe
